import Mathlib

/-!
# Verification of the negotiation-agent core

Shallow embedding of the negotiation core of this repository
(`agent.py` and `negotiation_agent_[Codesisters].py`):

* the buyer agent `YourBuyerAgent` (pricing model, opening offer,
  response/concession logic),
* the mirror seller agent `YourSellerAgent`,
* the mock seller and the orchestration loop `run_negotiation_test`.

Modelling conventions:

* Python `int` is modelled as `ℤ`; Python `float` arithmetic is modelled as
  exact rational arithmetic in `ℚ` (all float expressions in the source are
  products/sums of small decimal literals with integers).
* Python `int(x)` on a float (truncation toward zero) is `pyInt`;
  Python `round(x)` (round-half-to-even) is `pyRound`.
* `str.strip()` / `str.lower()` are `pyStrip` / `pyLower`, defined over the
  character list (the strings the core compares against are ASCII).
* Message strings are cosmetic; the distinct return branches of
  `respond_to_seller_offer` are represented by a `RespTag` constructor in
  place of the distinct message string each branch builds.  The `messages`
  transcript list and the percentage display fields of the result dict are
  not consumed by any decision logic and are omitted.
-/

/-- Python `int(x)` applied to a float: truncation toward zero. -/
def pyInt (q : ℚ) : ℤ :=
  if 0 ≤ q then ⌊q⌋ else ⌈q⌉

/-- Python `round(x)`: round half to even. -/
def pyRound (q : ℚ) : ℤ :=
  if Int.fract q = 1/2 then
    (if ⌊q⌋ % 2 = 0 then ⌊q⌋ else ⌊q⌋ + 1)
  else
    round q

lemma pyInt_intCast (n : ℤ) : pyInt (n : ℚ) = n := by
  unfold pyInt
  split_ifs <;> simp

lemma le_pyInt {n : ℤ} {q : ℚ} (h : (n : ℚ) ≤ q) : n ≤ pyInt q := by
  unfold pyInt
  split_ifs with h0
  · exact Int.le_floor.mpr h
  · have h1 : (n : ℚ) ≤ (⌈q⌉ : ℚ) := le_trans h (Int.le_ceil q)
    exact_mod_cast h1

lemma pyInt_le {n : ℤ} {q : ℚ} (h : q ≤ (n : ℚ)) : pyInt q ≤ n := by
  unfold pyInt
  split_ifs with h0
  · have h1 : (⌊q⌋ : ℚ) ≤ (n : ℚ) := le_trans (Int.floor_le q) h
    exact_mod_cast h1
  · exact Int.ceil_le.mpr h

lemma pyInt_mono {p q : ℚ} (h : p ≤ q) : pyInt p ≤ pyInt q := by
  unfold pyInt
  split_ifs with h1 h2
  · exact Int.floor_le_floor h
  · exact absurd (le_trans h1 h) h2
  · have hc : ⌈p⌉ ≤ 0 := Int.ceil_le.mpr (by exact_mod_cast le_of_lt (not_le.mp h1))
    have hf : 0 ≤ ⌊q⌋ := Int.floor_nonneg.mpr (by assumption)
    omega
  · exact Int.ceil_le_ceil h

lemma pyInt_nonneg {q : ℚ} (h : 0 ≤ q) : 0 ≤ pyInt q := by
  unfold pyInt
  rw [if_pos h]
  exact Int.floor_nonneg.mpr h

lemma pyRound_intCast (n : ℤ) : pyRound (n : ℚ) = n := by
  unfold pyRound
  have h : Int.fract (n : ℚ) = 0 := Int.fract_intCast n
  rw [h]
  norm_num

lemma pyRound_nonneg {q : ℚ} (h : 0 ≤ q) : 0 ≤ pyRound q := by
  unfold pyRound
  have hf : 0 ≤ ⌊q⌋ := Int.floor_nonneg.mpr h
  split_ifs with h1 h2
  · exact hf
  · omega
  · rw [round_eq]
    exact Int.floor_nonneg.mpr (by linarith)

/-- ASCII lower-casing of a character (the effect of Python `str.lower()`
on the ASCII strings the core compares against). -/
def lowerChar (c : Char) : Char :=
  if 'A' ≤ c ∧ c ≤ 'Z' then Char.ofNat (c.toNat + 32) else c

/-- Python `str.lower()` (ASCII). -/
def pyLower (s : String) : String := ⟨s.data.map lowerChar⟩

/-- Python `str.strip()`: drop leading and trailing whitespace. -/
def pyStrip (s : String) : String :=
  ⟨((s.data.dropWhile Char.isWhitespace).reverse.dropWhile Char.isWhitespace).reverse⟩

/-- `Product` data record (`agent.py`, Part 1).  The open `attributes`
mapping is never read by the core and is omitted. -/
structure Product where
  name : String
  category : String
  quantity : ℤ
  quality_grade : String
  origin : String
  base_market_price : ℤ
deriving DecidableEq

/-- `NegotiationContext` (`agent.py`, Part 1), minus the cosmetic
`messages` transcript (never read by decision logic). -/
structure NegotiationContext where
  product : Product
  your_budget : ℤ
  current_round : ℤ
  seller_offers : List ℤ
  your_offers : List ℤ
deriving DecidableEq

/-- `DealStatus` enumeration (`agent.py`, Part 1). -/
inductive DealStatus where
  | ONGOING
  | ACCEPTED
  | REJECTED
  | TIMEOUT
deriving DecidableEq

/-- Stands in for the six distinct message strings built by the branches of
`YourBuyerAgent.respond_to_seller_offer`: one constructor per return site,
in source order. -/
inductive RespTag where
  | zoneAccept
  | snapAccept
  | convergenceAccept
  | dominanceAccept
  | counterFinal
  | counterNormal
deriving DecidableEq

namespace YourBuyerAgent

/-- `YourBuyerAgent._quality_multiplier`. -/
def quality_mult (product : Product) : ℚ :=
  let q := pyLower (pyStrip product.quality_grade)
  if q = "export" then 1.15
  else if q = "a" then 1.05
  else if q = "b" then 0.95
  else 1.0

/-- The fixed origin bonus set of `calculate_fair_price`. -/
def originBonus : List String := ["colombia", "ethiopia", "yirgacheffe"]

/-- `YourBuyerAgent.calculate_fair_price`. -/
def calculate_fair_price (product : Product) : ℤ :=
  let base : ℚ := product.base_market_price
  let quality_factor : ℚ := quality_mult product
  let origin_factor : ℚ := if pyLower product.origin ∈ originBonus then 1.05 else 1.0
  let volume_factor : ℚ := if product.quantity ≥ 200 then 0.98 else 1.0
  pyRound (base * quality_factor * origin_factor * volume_factor)

/-- `YourBuyerAgent.target_zone`. -/
def target_zone (product : Product) : ℤ × ℤ :=
  let fair := calculate_fair_price product
  (pyInt ((fair : ℚ) * 0.88), pyInt ((fair : ℚ) * 0.97))

/-- `YourBuyerAgent.generate_opening_offer` (offer component; the message is
cosmetic). -/
def generate_opening_offer (context : NegotiationContext) : ℤ :=
  let fair := calculate_fair_price context.product
  let opening_price := pyInt ((fair : ℚ) * 0.78)
  min opening_price context.your_budget

/-- `last_offer` as computed at the top of the counter logic of
`respond_to_seller_offer`:
`context.your_offers[-1] if context.your_offers else int(fair * 0.78)`. -/
def last_offer (context : NegotiationContext) : ℤ :=
  context.your_offers.getLast?.getD
    (pyInt ((calculate_fair_price context.product : ℚ) * 0.78))

/-- The concession-step selection of `respond_to_seller_offer`. -/
def concession_step (rounds_left : ℤ) : ℚ :=
  if rounds_left ≥ 6 then 0.07
  else if rounds_left ≥ 3 then 0.045
  else 0.03

/-- The proposal computation of `respond_to_seller_offer` (the block from
`last_offer = ...` through the `current_round >= 9` adjustment). -/
def proposed_offer (context : NegotiationContext) (seller_price : ℤ) : ℤ :=
  let budget := context.your_budget
  let fair := calculate_fair_price context.product
  let lo := last_offer context
  let step := concession_step (10 - context.current_round)
  let target_point : ℤ := min seller_price budget
  let midpoint : ℚ := ((lo : ℚ) + (target_point : ℚ)) / 2
  let proposed := pyInt (min (budget : ℚ)
    (max (max (lo : ℚ) ((lo : ℚ) * (1 + step))) (midpoint * 0.97)))
  if context.current_round ≥ 9 then
    min budget (max proposed (pyInt ((fair : ℚ) * 0.90)))
  else
    min proposed (max (pyInt ((fair : ℚ) * 0.92)) lo)

/-- `YourBuyerAgent.respond_to_seller_offer`.  Returns the deal status, the
price component, and the tag of the branch that produced the answer (in
place of that branch's message string). -/
def respond_to_seller_offer (context : NegotiationContext) (seller_price : ℤ)
    (seller_message : String) : DealStatus × ℤ × RespTag :=
  let budget := context.your_budget
  let fair := calculate_fair_price context.product
  let low := (target_zone context.product).1
  let high := (target_zone context.product).2
  if seller_price ≤ budget ∧ low ≤ seller_price ∧ seller_price ≤ high then
    (DealStatus.ACCEPTED, seller_price, RespTag.zoneAccept)
  else if seller_price ≤ budget ∧ seller_price ≤ pyInt ((fair : ℚ) * 0.85) then
    (DealStatus.ACCEPTED, seller_price, RespTag.snapAccept)
  else
    let proposed := proposed_offer context seller_price
    if seller_price ≤ budget ∧ |seller_price - proposed| ≤ pyInt (0.015 * (fair : ℚ)) then
      (DealStatus.ACCEPTED, seller_price, RespTag.convergenceAccept)
    else if seller_price ≤ min budget proposed then
      (DealStatus.ACCEPTED, seller_price, RespTag.dominanceAccept)
    else
      let counter_offer := min proposed budget
      if context.current_round ≥ 9 then
        (DealStatus.ONGOING, counter_offer, RespTag.counterFinal)
      else
        (DealStatus.ONGOING, counter_offer, RespTag.counterNormal)

end YourBuyerAgent

/-- `MockSellerAgent` (`agent.py`, Part 5): carries only the minimum price
(the `personality` string is cosmetic). -/
structure MockSellerAgent where
  min_price : ℤ
deriving DecidableEq

namespace MockSellerAgent

/-- `MockSellerAgent.get_opening_price` (price component). -/
def get_opening_price (product : Product) : ℤ :=
  pyInt ((product.base_market_price : ℚ) * 1.5)

/-- `MockSellerAgent.respond_to_buyer`: returns `(counter_price, accepts)`
(the message is cosmetic). -/
def respond_to_buyer (seller : MockSellerAgent) (buyer_offer : ℤ)
    (round_num : ℤ) : ℤ × Bool :=
  if (buyer_offer : ℚ) ≥ (seller.min_price : ℚ) * 1.1 then
    (buyer_offer, true)
  else if round_num ≥ 8 then
    (max seller.min_price (pyInt ((buyer_offer : ℚ) * 1.05)), false)
  else
    (max seller.min_price (pyInt ((buyer_offer : ℚ) * 1.15)), false)

end MockSellerAgent

/-- Abstract buyer strategy, the shape `run_negotiation_test` consumes from
`BaseBuyerAgent`: an opening-offer function and a response function (message
strings are cosmetic and dropped; `YourBuyerAgent.respond_to_seller_offer`
never reads the seller's message). -/
structure BuyerAgent where
  opening : NegotiationContext → ℤ
  respond : NegotiationContext → ℤ → DealStatus × ℤ

/-- The `YourBuyerAgent` instance packaged for the orchestrator. -/
def yourBuyerAgent : BuyerAgent where
  opening := YourBuyerAgent.generate_opening_offer
  respond := fun c sp =>
    ((YourBuyerAgent.respond_to_seller_offer c sp "").1,
     (YourBuyerAgent.respond_to_seller_offer c sp "").2.1)

/-- Outcome of one iteration of the `for round_num in range(10)` loop of
`run_negotiation_test`: either the loop breaks with
`(deal_made, final_price, context)`, or it continues with an updated
context and the seller's new price. -/
inductive StepOut where
  | done : Bool → Option ℤ → NegotiationContext → StepOut
  | next : NegotiationContext → ℤ → StepOut

/-- The context an iteration outcome carries. -/
def StepOut.ctx : StepOut → NegotiationContext
  | .done _ _ c => c
  | .next c _ => c

/-- The buyer offer produced in iteration `round_num` of the loop (the
opening offer in the first iteration, otherwise the response to the
seller's price), as seen after `current_round` has been set. -/
def stepOffer (buyer : BuyerAgent) (round_num : ℕ)
    (context : NegotiationContext) (seller_price : ℤ) : ℤ :=
  let context1 := { context with current_round := (round_num : ℤ) + 1 }
  if round_num = 0 then buyer.opening context1
  else (buyer.respond context1 seller_price).2

/-- One iteration of the loop body of `run_negotiation_test`. -/
def negotiationStep (buyer : BuyerAgent) (seller : MockSellerAgent)
    (round_num : ℕ) (context : NegotiationContext) (seller_price : ℤ) : StepOut :=
  let context1 := { context with current_round := (round_num : ℤ) + 1 }
  let sb : DealStatus × ℤ :=
    if round_num = 0 then (DealStatus.ONGOING, buyer.opening context1)
    else buyer.respond context1 seller_price
  let context2 := { context1 with your_offers := context1.your_offers ++ [sb.2] }
  if sb.1 = DealStatus.ACCEPTED then
    .done true (some seller_price) context2
  else
    let sr := seller.respond_to_buyer sb.2 (round_num : ℤ)
    if sr.2 then
      .done true (some sb.2) context2
    else
      .next { context2 with seller_offers := context2.seller_offers ++ [sr.1] } sr.1

/-- The `for round_num in range(10)` loop of `run_negotiation_test`,
as structural recursion on the remaining iterations.  Returns
`(deal_made, final_price, context)`. -/
def negotiationLoop (buyer : BuyerAgent) (seller : MockSellerAgent) :
    ℕ → ℕ → NegotiationContext → ℤ → Bool × Option ℤ × NegotiationContext
  | 0, _, context, _ => (false, none, context)
  | remaining + 1, round_num, context, seller_price =>
    match negotiationStep buyer seller round_num context seller_price with
    | .done d f c => (d, f, c)
    | .next c sp => negotiationLoop buyer seller remaining (round_num + 1) c sp

/-- The context `run_negotiation_test` builds before the loop starts:
fresh state with the seller's opening price already appended. -/
def initial_context (product : Product) (buyer_budget : ℤ) : NegotiationContext where
  product := product
  your_budget := buyer_budget
  current_round := 0
  seller_offers := [MockSellerAgent.get_opening_price product]
  your_offers := []

/-- The result record of `run_negotiation_test` (the percentage display
fields and the transcript are cosmetic; the final context is carried so the
offer histories can be inspected). -/
structure NegotiationResult where
  deal_made : Bool
  final_price : Option ℤ
  rounds : ℤ
  savings : ℤ
  ctx : NegotiationContext

/-- `run_negotiation_test` (`agent.py`, Part 5). -/
def run_negotiation_test (buyer : BuyerAgent) (product : Product)
    (buyer_budget seller_min : ℤ) : NegotiationResult :=
  let seller : MockSellerAgent := ⟨seller_min⟩
  let context0 := initial_context product buyer_budget
  let sp0 := MockSellerAgent.get_opening_price product
  let out := negotiationLoop buyer seller 10 0 context0 sp0
  { deal_made := out.1
    final_price := out.2.1
    rounds := out.2.2.current_round
    savings := match out.1, out.2.1 with
      | true, some fp => buyer_budget - fp
      | _, _ => 0
    ctx := out.2.2 }

namespace YourSellerAgent

/-- `YourSellerAgent._quality_multiplier`
(`negotiation_agent_[Codesisters].py`). -/
def seller_quality_mult (product : Product) : ℚ :=
  let q := pyLower (pyStrip product.quality_grade)
  if q = "export" then 1.15
  else if q = "a" then 1.06
  else if q = "b" then 0.94
  else 1.0

/-- `YourSellerAgent.fair_price`. -/
def fair_price (product : Product) : ℤ :=
  let base : ℚ := product.base_market_price
  let qf := seller_quality_mult product
  let origin_factor : ℚ :=
    if pyLower product.origin ∈ YourBuyerAgent.originBonus then 1.05 else 1.0
  let logistics : ℚ := 1.01
  pyRound (base * qf * origin_factor * logistics)

/-- `YourSellerAgent.seller_zone`. -/
def seller_zone (product : Product) : ℤ × ℤ :=
  let fair := fair_price product
  (pyInt ((fair : ℚ) * 1.00), pyInt ((fair : ℚ) * 1.10))

/-- The step-down selection of `YourSellerAgent.respond_to_buyer_offer`. -/
def seller_step_down (rounds_left : ℤ) : ℚ :=
  if rounds_left ≥ 6 then 0.07
  else if rounds_left ≥ 3 then 0.05
  else 0.03

/-- The descending counter-ask computation of
`YourSellerAgent.respond_to_buyer_offer` (the block from
`rounds_left = ...` through the `round_num >= 8` adjustment). -/
def seller_counter (product : Product) (buyer_offer round_num : ℤ) : ℤ :=
  let fair := fair_price product
  let rounds_left := 10 - (round_num + 1)
  let step_down := seller_step_down rounds_left
  let ask : ℤ :=
    if round_num = 0 then pyInt ((fair : ℚ) * 1.28)
    else pyInt ((fair : ℚ) * (1.28 - 0.06 * ((min round_num 4 : ℤ) : ℚ)))
  let midpoint : ℚ := ((ask : ℚ) + ((max buyer_offer (pyInt ((fair : ℚ) * 0.90)) : ℤ) : ℚ)) / 2
  let counter := pyInt (max midpoint ((fair : ℚ) * (1 + step_down)))
  if round_num ≥ 8 then pyInt (max (counter : ℚ) (fair : ℚ)) else counter

/-- `YourSellerAgent.respond_to_buyer_offer`: returns the status string
(`"accepted"`/`"ongoing"`, as in the source) and the price component. -/
def respond_to_buyer_offer (product : Product) (buyer_offer round_num : ℤ) :
    String × ℤ :=
  let fair := fair_price product
  let low := (seller_zone product).1
  let high := (seller_zone product).2
  if low ≤ buyer_offer ∧ buyer_offer ≤ high then
    ("accepted", buyer_offer)
  else if buyer_offer ≥ pyInt ((fair : ℚ) * 0.98) then
    ("accepted", buyer_offer)
  else
    ("ongoing", seller_counter product buyer_offer round_num)

end YourSellerAgent

/-- The spec's scenario product: base price 180000, grade A, quantity 100,
origin Ratnagiri (first test product of `test_your_agent`). -/
def mangoProduct : Product :=
  ⟨"Alphonso Mangoes", "Mangoes", 100, "A", "Ratnagiri", 180000⟩

/-- The coffee product of the seller test harness
(`negotiation_agent_[Codesisters].py`, `test_seller_agent`). -/
def coffeeProduct : Product :=
  ⟨"Arabica Coffee Beans", "Coffee", 200, "A", "Colombia", 240000⟩

/-- A fresh context over `mangoProduct` with a given budget (round 0, empty
histories), as a buyer agent sees it on a first call. -/
def mangoContext (budget : ℤ) : NegotiationContext :=
  ⟨mangoProduct, budget, 0, [], []⟩

/-- Instrumented buyer whose offers report the `current_round` value it
observes on each call (used to test what round number the orchestrator
exposes to the strategies). -/
def probeBuyer : BuyerAgent where
  opening := fun c => c.current_round
  respond := fun c _ => (DealStatus.ONGOING, c.current_round)

/-- A buyer that always counters 0 and never accepts (used to exercise the
timeout path of the loop). -/
def stubbornBuyer : BuyerAgent where
  opening := fun _ => 0
  respond := fun _ _ => (DealStatus.ONGOING, 0)

/-- A mid-negotiation context over `mangoProduct`: budget 200000, round 2,
one prior buyer offer 147420 (the opening), seller's opening 270000 on
record. -/
def counterContext : NegotiationContext :=
  ⟨mangoProduct, 200000, 2, [270000], [147420]⟩

/-- A degenerate product whose fair price is 20 (base 20, unrecognized
grade, no bonuses): at this scale the zone-accept lower bound
`int(0.88 × 20) = 17` coincides with the snap threshold
`int(0.85 × 20) = 17`. -/
def tinyProduct : Product := ⟨"x", "x", 1, "C", "x", 20⟩

/-- A context over `tinyProduct` with budget 100. -/
def tinyContext : NegotiationContext := ⟨tinyProduct, 100, 1, [], []⟩

section HelperLemmas

open YourBuyerAgent

lemma quality_mult_nonneg (p : Product) : 0 ≤ quality_mult p := by
  simp only [quality_mult]
  split_ifs <;> norm_num

lemma fair_nonneg {p : Product} (h : 0 ≤ p.base_market_price) :
    0 ≤ calculate_fair_price p := by
  simp only [calculate_fair_price]
  apply pyRound_nonneg
  have hb : (0 : ℚ) ≤ (p.base_market_price : ℚ) := by exact_mod_cast h
  apply mul_nonneg (mul_nonneg (mul_nonneg hb (quality_mult_nonneg p)) _) _
  · split_ifs <;> norm_num
  · split_ifs <;> norm_num

lemma opening_eq (c : NegotiationContext) :
    generate_opening_offer c =
      min (pyInt ((calculate_fair_price c.product : ℚ) * 0.78)) c.your_budget := rfl

lemma opening_le_budget (c : NegotiationContext) :
    generate_opening_offer c ≤ c.your_budget := min_le_right _ _

lemma opening_nonneg {c : NegotiationContext}
    (hb : 0 ≤ c.product.base_market_price) (hB : 0 ≤ c.your_budget) :
    0 ≤ generate_opening_offer c := by
  rw [opening_eq]
  refine le_min (pyInt_nonneg ?_) hB
  have hf : (0 : ℚ) ≤ (calculate_fair_price c.product : ℚ) := by
    exact_mod_cast fair_nonneg hb
  nlinarith

lemma respond_status_cases (c : NegotiationContext) (sp : ℤ) (m : String) :
    (respond_to_seller_offer c sp m).1 = DealStatus.ACCEPTED ∨
      (respond_to_seller_offer c sp m).1 = DealStatus.ONGOING := by
  simp only [respond_to_seller_offer]
  split_ifs <;> simp

lemma respond_price_le_budget (c : NegotiationContext) (sp : ℤ) (m : String) :
    (respond_to_seller_offer c sp m).2.1 ≤ c.your_budget := by
  simp only [respond_to_seller_offer]
  split_ifs with h1 h2 h3 h4 <;> simp only
  · exact h1.1
  · exact h2.1
  · exact h3.1
  · exact le_trans h4 (min_le_left _ _)
  · exact min_le_right _ _
  · exact min_le_right _ _

lemma respond_accepted_price {c : NegotiationContext} {sp : ℤ} {m : String}
    (h : (respond_to_seller_offer c sp m).1 = DealStatus.ACCEPTED) :
    (respond_to_seller_offer c sp m).2.1 = sp := by
  revert h
  simp only [respond_to_seller_offer]
  split_ifs <;> simp

lemma respond_ongoing_price {c : NegotiationContext} {sp : ℤ} {m : String}
    (h : (respond_to_seller_offer c sp m).1 = DealStatus.ONGOING) :
    (respond_to_seller_offer c sp m).2.1 =
      min (proposed_offer c sp) c.your_budget := by
  revert h
  simp only [respond_to_seller_offer]
  split_ifs <;> simp

lemma last_offer_eq {c : NegotiationContext} {l : ℤ}
    (h : c.your_offers.getLast? = some l) : last_offer c = l := by
  simp [last_offer, h]

lemma proposed_ge_last {c : NegotiationContext} (sp : ℤ)
    (h : last_offer c ≤ c.your_budget) :
    last_offer c ≤ proposed_offer c sp := by
  simp only [proposed_offer]
  set lo := last_offer c with hlo
  set B := c.your_budget with hB
  have hloB : (lo : ℚ) ≤ (B : ℚ) := by exact_mod_cast h
  have hP : lo ≤ pyInt (min (B : ℚ)
      (max (max (lo : ℚ) ((lo : ℚ) * (1 + concession_step (10 - c.current_round))))
        (((lo : ℚ) + ((min sp B : ℤ) : ℚ)) / 2 * 0.97))) := by
    apply le_pyInt
    refine le_min hloB ?_
    exact le_trans (le_max_left _ _) (le_max_left _ _)
  split_ifs
  · exact le_min h (le_trans hP (le_max_left _ _))
  · exact le_min hP (le_max_right _ _)

lemma mock_counter_ge {s : MockSellerAgent} {o : ℤ} (h0 : 0 ≤ o) (rn : ℤ) :
    o ≤ (s.respond_to_buyer o rn).1 := by
  have hq : (0 : ℚ) ≤ (o : ℚ) := by exact_mod_cast h0
  simp only [MockSellerAgent.respond_to_buyer]
  split_ifs <;> simp only
  · exact le_refl o
  · exact le_trans (le_pyInt (by nlinarith)) (le_max_right _ _)
  · exact le_trans (le_pyInt (by nlinarith)) (le_max_right _ _)

lemma yourBuyer_respond_fst (c : NegotiationContext) (sp : ℤ) :
    (yourBuyerAgent.respond c sp).1 =
      (YourBuyerAgent.respond_to_seller_offer c sp "").1 := rfl

lemma yourBuyer_respond_snd (c : NegotiationContext) (sp : ℤ) :
    (yourBuyerAgent.respond c sp).2 =
      (YourBuyerAgent.respond_to_seller_offer c sp "").2.1 := rfl

lemma step_ctx_your_offers (b : BuyerAgent) (s : MockSellerAgent)
    (rn : ℕ) (ctx : NegotiationContext) (sp : ℤ) :
    (negotiationStep b s rn ctx sp).ctx.your_offers =
      ctx.your_offers ++ [stepOffer b rn ctx sp] := by
  simp only [negotiationStep, stepOffer]
  split_ifs <;> rfl

lemma step_ctx_current_round (b : BuyerAgent) (s : MockSellerAgent)
    (rn : ℕ) (ctx : NegotiationContext) (sp : ℤ) :
    (negotiationStep b s rn ctx sp).ctx.current_round = (rn : ℤ) + 1 := by
  simp only [negotiationStep]
  split_ifs <;> rfl

lemma step_ctx_your_budget (b : BuyerAgent) (s : MockSellerAgent)
    (rn : ℕ) (ctx : NegotiationContext) (sp : ℤ) :
    (negotiationStep b s rn ctx sp).ctx.your_budget = ctx.your_budget := by
  simp only [negotiationStep]
  split_ifs <;> rfl

lemma step_ctx_product (b : BuyerAgent) (s : MockSellerAgent)
    (rn : ℕ) (ctx : NegotiationContext) (sp : ℤ) :
    (negotiationStep b s rn ctx sp).ctx.product = ctx.product := by
  simp only [negotiationStep]
  split_ifs <;> rfl

lemma step_next_sp {b : BuyerAgent} {s : MockSellerAgent}
    {rn : ℕ} {ctx : NegotiationContext} {sp : ℤ} {c : NegotiationContext} {sp' : ℤ}
    (h : negotiationStep b s rn ctx sp = .next c sp') :
    sp' = (s.respond_to_buyer (stepOffer b rn ctx sp) (rn : ℤ)).1 ∧
      c = (negotiationStep b s rn ctx sp).ctx := by
  revert h
  simp only [negotiationStep, stepOffer, StepOut.ctx]
  split_ifs <;> intro h <;> cases h <;> simp_all [StepOut.ctx]

lemma loop_offers_length (b : BuyerAgent) (s : MockSellerAgent) :
    ∀ (rem rn : ℕ) (ctx : NegotiationContext) (sp : ℤ),
      ((negotiationLoop b s rem rn ctx sp).2.2.your_offers).length ≤
        ctx.your_offers.length + rem := by
  intro rem
  induction rem with
  | zero => intro rn ctx sp; simp [negotiationLoop]
  | succ rem ih =>
    intro rn ctx sp
    rw [negotiationLoop]
    cases h : negotiationStep b s rn ctx sp with
    | done d f c =>
      have hc : c.your_offers = ctx.your_offers ++ [stepOffer b rn ctx sp] := by
        have := step_ctx_your_offers b s rn ctx sp
        rw [h] at this
        exact this
      simp [hc] <;> omega
    | next c sp' =>
      have hc : c.your_offers = ctx.your_offers ++ [stepOffer b rn ctx sp] := by
        have := step_ctx_your_offers b s rn ctx sp
        rw [h] at this
        exact this
      refine le_trans (ih (rn + 1) c sp') ?_
      simp [hc] <;> omega

lemma loop_rounds_le (b : BuyerAgent) (s : MockSellerAgent) :
    ∀ (rem rn : ℕ) (ctx : NegotiationContext) (sp : ℤ),
      ctx.current_round ≤ (rn : ℤ) →
      (negotiationLoop b s rem rn ctx sp).2.2.current_round ≤ (rn : ℤ) + rem := by
  intro rem
  induction rem with
  | zero => intro rn ctx sp h; simpa [negotiationLoop] using h
  | succ rem ih =>
    intro rn ctx sp h
    rw [negotiationLoop]
    cases hs : negotiationStep b s rn ctx sp with
    | done d f c =>
      have hc : c.current_round = (rn : ℤ) + 1 := by
        have := step_ctx_current_round b s rn ctx sp
        rw [hs] at this
        exact this
      simp only [hc]
      push_cast
      omega
    | next c sp' =>
      have hc : c.current_round = (rn : ℤ) + 1 := by
        have := step_ctx_current_round b s rn ctx sp
        rw [hs] at this
        exact this
      refine le_trans (ih (rn + 1) c sp' (by rw [hc]; push_cast; omega)) ?_
      push_cast
      omega

lemma loop_round_eq_len (b : BuyerAgent) (s : MockSellerAgent) :
    ∀ (rem rn : ℕ) (ctx : NegotiationContext) (sp : ℤ),
      ctx.current_round = (ctx.your_offers.length : ℤ) →
      ctx.your_offers.length = rn →
      (negotiationLoop b s rem rn ctx sp).2.2.current_round =
        ((negotiationLoop b s rem rn ctx sp).2.2.your_offers.length : ℤ) := by
  intro rem
  induction rem with
  | zero => intro rn ctx sp h1 h2; simpa [negotiationLoop] using h1
  | succ rem ih =>
    intro rn ctx sp h1 h2
    rw [negotiationLoop]
    cases hs : negotiationStep b s rn ctx sp with
    | done d f c =>
      have hc1 : c.current_round = (rn : ℤ) + 1 := by
        have := step_ctx_current_round b s rn ctx sp; rw [hs] at this; exact this
      have hc2 : c.your_offers = ctx.your_offers ++ [stepOffer b rn ctx sp] := by
        have := step_ctx_your_offers b s rn ctx sp; rw [hs] at this; exact this
      simp only [hc1, hc2, List.length_append, List.length_singleton]
      push_cast
      omega
    | next c sp' =>
      have hc1 : c.current_round = (rn : ℤ) + 1 := by
        have := step_ctx_current_round b s rn ctx sp; rw [hs] at this; exact this
      have hc2 : c.your_offers = ctx.your_offers ++ [stepOffer b rn ctx sp] := by
        have := step_ctx_your_offers b s rn ctx sp; rw [hs] at this; exact this
      exact ih (rn + 1) c sp'
        (by rw [hc1, hc2]; simp only [List.length_append, List.length_singleton]; push_cast; omega)
        (by rw [hc2]; simp only [List.length_append, List.length_singleton]; omega)

lemma step_no_accept (b : BuyerAgent) (smin : ℤ)
    (H1 : ∀ c, ((b.opening c : ℚ) < (smin : ℚ) * 1.1))
    (H2 : ∀ c sp, (b.respond c sp).1 ≠ DealStatus.ACCEPTED ∧
      (((b.respond c sp).2 : ℚ) < (smin : ℚ) * 1.1))
    (rn : ℕ) (ctx : NegotiationContext) (sp : ℤ) :
    ∃ c sp', negotiationStep b ⟨smin⟩ rn ctx sp = .next c sp' := by
  have hstat : (if rn = 0 then
      (DealStatus.ONGOING, b.opening { ctx with current_round := (rn : ℤ) + 1 })
      else b.respond { ctx with current_round := (rn : ℤ) + 1 } sp).1 ≠
      DealStatus.ACCEPTED := by
    split_ifs with h0
    · simp
    · exact (H2 _ _).1
  have hoff : (((if rn = 0 then
      (DealStatus.ONGOING, b.opening { ctx with current_round := (rn : ℤ) + 1 })
      else b.respond { ctx with current_round := (rn : ℤ) + 1 } sp).2 : ℤ) : ℚ) <
      (smin : ℚ) * 1.1 := by
    split_ifs with h0
    · exact H1 _
    · exact (H2 _ _).2
  have hsell : ((MockSellerAgent.mk smin).respond_to_buyer
      ((if rn = 0 then
        (DealStatus.ONGOING, b.opening { ctx with current_round := (rn : ℤ) + 1 })
        else b.respond { ctx with current_round := (rn : ℤ) + 1 } sp).2)
      ((rn : ℕ) : ℤ)).2 = false := by
    simp only [MockSellerAgent.respond_to_buyer]
    rw [if_neg (not_le.mpr hoff)]
    split_ifs <;> rfl
  simp only [negotiationStep]
  rw [if_neg hstat, if_neg (by rw [hsell]; simp)]
  exact ⟨_, _, rfl⟩

lemma loop_no_accept (b : BuyerAgent) (smin : ℤ)
    (H1 : ∀ c, ((b.opening c : ℚ) < (smin : ℚ) * 1.1))
    (H2 : ∀ c sp, (b.respond c sp).1 ≠ DealStatus.ACCEPTED ∧
      (((b.respond c sp).2 : ℚ) < (smin : ℚ) * 1.1)) :
    ∀ (rem rn : ℕ) (ctx : NegotiationContext) (sp : ℤ),
      (negotiationLoop b ⟨smin⟩ rem rn ctx sp).1 = false ∧
        (negotiationLoop b ⟨smin⟩ rem rn ctx sp).2.1 = none := by
  intro rem
  induction rem with
  | zero => intro rn ctx sp; simp [negotiationLoop]
  | succ rem ih =>
    intro rn ctx sp
    rw [negotiationLoop]
    obtain ⟨c, sp', hstep⟩ := step_no_accept b smin H1 H2 rn ctx sp
    rw [hstep]
    exact ih (rn + 1) c sp'

lemma pyInt_eval {q : ℚ} {n : ℤ} (h1 : 0 ≤ q) (h2 : ⌊q⌋ = n) : pyInt q = n := by
  rw [pyInt, if_pos h1, h2]

lemma respond_eq_zone {c : NegotiationContext} {sp : ℤ} {m : String}
    (h1 : sp ≤ c.your_budget ∧ (target_zone c.product).1 ≤ sp ∧
      sp ≤ (target_zone c.product).2) :
    respond_to_seller_offer c sp m = (DealStatus.ACCEPTED, sp, RespTag.zoneAccept) := by
  simp only [respond_to_seller_offer]
  rw [if_pos h1]

lemma respond_eq_snap {c : NegotiationContext} {sp : ℤ} {m : String}
    (h1 : ¬(sp ≤ c.your_budget ∧ (target_zone c.product).1 ≤ sp ∧
      sp ≤ (target_zone c.product).2))
    (h2 : sp ≤ c.your_budget ∧
      sp ≤ pyInt ((calculate_fair_price c.product : ℚ) * 0.85)) :
    respond_to_seller_offer c sp m = (DealStatus.ACCEPTED, sp, RespTag.snapAccept) := by
  simp only [respond_to_seller_offer]
  rw [if_neg h1, if_pos h2]

lemma respond_eq_counter {c : NegotiationContext} {sp : ℤ} {m : String}
    (h1 : ¬(sp ≤ c.your_budget ∧ (target_zone c.product).1 ≤ sp ∧
      sp ≤ (target_zone c.product).2))
    (h2 : ¬(sp ≤ c.your_budget ∧
      sp ≤ pyInt ((calculate_fair_price c.product : ℚ) * 0.85)))
    (h3 : ¬(sp ≤ c.your_budget ∧ |sp - proposed_offer c sp| ≤
      pyInt (0.015 * (calculate_fair_price c.product : ℚ))))
    (h4 : ¬(sp ≤ min c.your_budget (proposed_offer c sp))) :
    respond_to_seller_offer c sp m =
      (DealStatus.ONGOING, min (proposed_offer c sp) c.your_budget,
        if c.current_round ≥ 9 then RespTag.counterFinal else RespTag.counterNormal) := by
  simp only [respond_to_seller_offer]
  rw [if_neg h1, if_neg h2, if_neg h3, if_neg h4]
  split_ifs <;> rfl

lemma fair_mango : calculate_fair_price mangoProduct = 189000 := by
  have h1 : pyLower (pyStrip "A") = "a" := by decide
  have h2 : pyLower "Ratnagiri" = "ratnagiri" := by decide
  simp only [calculate_fair_price, quality_mult, originBonus, mangoProduct, h1, h2]
  norm_num
  rw [if_neg (by decide), if_neg (by decide)]
  rw [show (189000 : ℚ) = ((189000 : ℤ) : ℚ) by norm_num, pyRound_intCast]

lemma zone_mango : target_zone mangoProduct = (166320, 183330) := by
  rw [target_zone, fair_mango]
  rw [show ((189000 : ℤ) : ℚ) * 0.88 = ((166320 : ℤ) : ℚ) by push_cast; norm_num,
    pyInt_intCast,
    show ((189000 : ℤ) : ℚ) * 0.97 = ((183330 : ℤ) : ℚ) by push_cast; norm_num,
    pyInt_intCast]

lemma snap_threshold_mango :
    pyInt ((calculate_fair_price mangoProduct : ℚ) * 0.85) = 160650 := by
  rw [fair_mango,
    show ((189000 : ℤ) : ℚ) * 0.85 = ((160650 : ℤ) : ℚ) by push_cast; norm_num,
    pyInt_intCast]

lemma opening_mango (b : ℤ) :
    generate_opening_offer (mangoContext b) = min 147420 b := by
  rw [opening_eq]
  rw [show (mangoContext b).product = mangoProduct from rfl, fair_mango,
    show ((189000 : ℤ) : ℚ) * 0.78 = ((147420 : ℤ) : ℚ) by push_cast; norm_num,
    pyInt_intCast]
  rfl

lemma stepOffer_zero (b : BuyerAgent) (ctx : NegotiationContext) (sp : ℤ) :
    stepOffer b 0 ctx sp = b.opening { ctx with current_round := ((0 : ℕ) : ℤ) + 1 } := by
  simp [stepOffer]

lemma stepOffer_pos (b : BuyerAgent) {rn : ℕ} (h : rn ≠ 0)
    (ctx : NegotiationContext) (sp : ℤ) :
    stepOffer b rn ctx sp =
      (b.respond { ctx with current_round := (rn : ℤ) + 1 } sp).2 := by
  simp [stepOffer, h]

lemma loop_chain (smin : ℤ) :
    ∀ (rem rn : ℕ) (ctx : NegotiationContext) (sp : ℤ),
      (rn = 0 → ctx.your_offers = [] ∧ 0 ≤ ctx.product.base_market_price ∧
        0 ≤ ctx.your_budget) →
      (rn ≠ 0 → List.Chain' (· ≤ ·) ctx.your_offers ∧
        ∃ l, ctx.your_offers.getLast? = some l ∧ l ≤ ctx.your_budget ∧
          0 ≤ l ∧ l ≤ sp) →
      List.Chain' (· ≤ ·)
        ((negotiationLoop yourBuyerAgent ⟨smin⟩ rem rn ctx sp).2.2.your_offers) := by
  intro rem
  induction rem with
  | zero =>
    intro rn ctx sp h0 hpos
    by_cases hrn : rn = 0
    · rw [negotiationLoop]
      rw [(h0 hrn).1]
      exact List.chain'_nil
    · rw [negotiationLoop]
      exact (hpos hrn).1
  | succ rem ih =>
    intro rn ctx sp h0 hpos
    -- facts about the offer appended this iteration
    have hoB : stepOffer yourBuyerAgent rn ctx sp ≤ ctx.your_budget := by
      by_cases hrn : rn = 0
      · subst hrn
        rw [stepOffer_zero]
        exact opening_le_budget _
      · rw [stepOffer_pos _ hrn]
        rw [yourBuyer_respond_snd]
        exact respond_price_le_budget _ _ _
    have hkey : (0 ≤ stepOffer yourBuyerAgent rn ctx sp) ∧
        (∀ x ∈ ctx.your_offers.getLast?, x ≤ stepOffer yourBuyerAgent rn ctx sp) := by
      by_cases hrn : rn = 0
      · subst hrn
        obtain ⟨hemp, hb, hB⟩ := h0 rfl
        constructor
        · rw [stepOffer_zero]
          exact opening_nonneg hb hB
        · intro x hx
          rw [hemp] at hx
          simp at hx
      · obtain ⟨hchain, l, hlast, hlB, hl0, hlsp⟩ := hpos hrn
        have hlo : YourBuyerAgent.last_offer
            { ctx with current_round := (rn : ℤ) + 1 } = l := last_offer_eq hlast
        have hle : l ≤ stepOffer yourBuyerAgent rn ctx sp := by
          rw [stepOffer_pos _ hrn, yourBuyer_respond_snd]
          rcases respond_status_cases { ctx with current_round := (rn : ℤ) + 1 } sp ""
            with hA | hO
          · rw [respond_accepted_price hA]
            exact hlsp
          · rw [respond_ongoing_price hO]
            refine le_min ?_ hlB
            rw [← hlo]
            exact proposed_ge_last sp (by rw [hlo]; exact hlB)
        constructor
        · exact le_trans hl0 hle
        · intro x hx
          rw [hlast] at hx
          simp at hx
          omega
    have hchain2 : List.Chain' (· ≤ ·)
        (ctx.your_offers ++ [stepOffer yourBuyerAgent rn ctx sp]) := by
      rw [List.chain'_append]
      refine ⟨?_, List.chain'_singleton _, ?_⟩
      · by_cases hrn : rn = 0
        · rw [(h0 hrn).1]; exact List.chain'_nil
        · exact (hpos hrn).1
      · intro x hx y hy
        simp only [List.head?_cons, Option.mem_def, Option.some.injEq] at hy
        rw [← hy]
        exact hkey.2 x hx
    rw [negotiationLoop]
    cases hs : negotiationStep yourBuyerAgent ⟨smin⟩ rn ctx sp with
    | done d f c =>
      have hc : c.your_offers = ctx.your_offers ++ [stepOffer yourBuyerAgent rn ctx sp] := by
        have := step_ctx_your_offers yourBuyerAgent ⟨smin⟩ rn ctx sp
        rw [hs] at this
        exact this
      simp only
      rw [hc]
      exact hchain2
    | next c sp' =>
      obtain ⟨hsp', hc⟩ := step_next_sp hs
      have hco : c.your_offers = ctx.your_offers ++ [stepOffer yourBuyerAgent rn ctx sp] := by
        rw [hc]
        exact step_ctx_your_offers yourBuyerAgent ⟨smin⟩ rn ctx sp
      have hcB : c.your_budget = ctx.your_budget := by
        rw [hc]
        exact step_ctx_your_budget yourBuyerAgent ⟨smin⟩ rn ctx sp
      refine ih (rn + 1) c sp' (by omega) ?_
      intro _
      refine ⟨by rw [hco]; exact hchain2,
        stepOffer yourBuyerAgent rn ctx sp, ?_, ?_, hkey.1, ?_⟩
      · rw [hco]
        exact List.getLast?_concat _
      · rw [hcB]
        exact hoB
      · rw [hsp']
        exact mock_counter_ge hkey.1 _

lemma mock_opening_mango :
    MockSellerAgent.get_opening_price mangoProduct = 270000 := by
  rw [MockSellerAgent.get_opening_price,
    show ((mangoProduct.base_market_price : ℤ) : ℚ) * 1.5 = ((270000 : ℤ) : ℚ) by
      norm_num [mangoProduct],
    pyInt_intCast]

lemma loop_offers_append (b : BuyerAgent) (s : MockSellerAgent) :
    ∀ (rem rn : ℕ) (ctx : NegotiationContext) (sp : ℤ),
      ∃ tail, (negotiationLoop b s rem rn ctx sp).2.2.your_offers =
        ctx.your_offers ++ tail := by
  intro rem
  induction rem with
  | zero => intro rn ctx sp; exact ⟨[], by simp [negotiationLoop]⟩
  | succ rem ih =>
    intro rn ctx sp
    rw [negotiationLoop]
    cases hs : negotiationStep b s rn ctx sp with
    | done d f c =>
      refine ⟨[stepOffer b rn ctx sp], ?_⟩
      have := step_ctx_your_offers b s rn ctx sp
      rw [hs] at this
      exact this
    | next c sp' =>
      obtain ⟨t, ht⟩ := ih (rn + 1) c sp'
      have hco : c.your_offers = ctx.your_offers ++ [stepOffer b rn ctx sp] := by
        have := step_ctx_your_offers b s rn ctx sp
        rw [hs] at this
        exact this
      exact ⟨[stepOffer b rn ctx sp] ++ t, by rw [ht, hco, List.append_assoc]⟩

lemma last_offer_counter : last_offer counterContext = 147420 := rfl

lemma proposed_counter : proposed_offer counterContext 260000 = 168498 := by
  have hfair : calculate_fair_price counterContext.product = 189000 := fair_mango
  have hrl : (10 : ℤ) - counterContext.current_round = 8 := by norm_num [counterContext]
  have hstep : concession_step (10 - counterContext.current_round) = 0.07 := by
    rw [hrl, concession_step, if_pos (by norm_num)]
  simp only [proposed_offer, last_offer_counter, hstep, hfair]
  have htp : ((min 260000 counterContext.your_budget : ℤ) : ℚ) = 200000 := by
    norm_num [counterContext]
  rw [htp]
  have hmid : min (counterContext.your_budget : ℚ)
      (max (max ((147420 : ℤ) : ℚ) (((147420 : ℤ) : ℚ) * (1 + 0.07)))
        ((((147420 : ℤ) : ℚ) + 200000) / 2 * 0.97)) = 1684987 / 10 := by
    norm_num [counterContext, min_def, max_def]
  rw [hmid]
  have hcand : pyInt ((1684987 : ℚ) / 10) = 168498 :=
    pyInt_eval (by norm_num) (by norm_num)
  rw [hcand]
  rw [if_neg (by norm_num [counterContext])]
  have h92 : pyInt (((189000 : ℤ) : ℚ) * 0.92) = 173880 := by
    rw [show ((189000 : ℤ) : ℚ) * 0.92 = ((173880 : ℤ) : ℚ) by push_cast; norm_num,
      pyInt_intCast]
  rw [h92]
  decide

lemma counter_eval :
    respond_to_seller_offer counterContext 260000 "" =
      (DealStatus.ONGOING, 168498, RespTag.counterNormal) := by
  have hz : ¬((260000 : ℤ) ≤ counterContext.your_budget ∧
      (target_zone counterContext.product).1 ≤ 260000 ∧
      (260000 : ℤ) ≤ (target_zone counterContext.product).2) :=
    fun h => absurd h.1 (by norm_num [counterContext])
  have hsn : ¬((260000 : ℤ) ≤ counterContext.your_budget ∧
      (260000 : ℤ) ≤ pyInt ((calculate_fair_price counterContext.product : ℚ) * 0.85)) :=
    fun h => absurd h.1 (by norm_num [counterContext])
  have hcv : ¬((260000 : ℤ) ≤ counterContext.your_budget ∧
      |(260000 : ℤ) - proposed_offer counterContext 260000| ≤
        pyInt (0.015 * (calculate_fair_price counterContext.product : ℚ))) :=
    fun h => absurd h.1 (by norm_num [counterContext])
  have hdm : ¬((260000 : ℤ) ≤
      min counterContext.your_budget (proposed_offer counterContext 260000)) := by
    rw [proposed_counter]
    simp only [counterContext]
    omega
  rw [respond_eq_counter hz hsn hcv hdm, proposed_counter]
  norm_num [counterContext, min_def]

lemma fair_tiny : calculate_fair_price tinyProduct = 20 := by
  have h1 : pyLower (pyStrip "C") = "c" := by decide
  have h2 : pyLower "x" = "x" := by decide
  simp only [calculate_fair_price, quality_mult, originBonus, tinyProduct, h1, h2]
  norm_num
  rw [if_neg (by decide), if_neg (by decide), if_neg (by decide), if_neg (by decide)]
  rw [show (20 : ℚ) = ((20 : ℤ) : ℚ) by norm_num, pyRound_intCast]

lemma zone_tiny : target_zone tinyProduct = (17, 19) := by
  rw [target_zone, fair_tiny]
  rw [show pyInt (((20 : ℤ) : ℚ) * 0.88) = 17 from
      pyInt_eval (by norm_num) (by norm_num),
    show pyInt (((20 : ℤ) : ℚ) * 0.97) = 19 from
      pyInt_eval (by norm_num) (by norm_num)]

lemma snap_tiny : pyInt ((calculate_fair_price tinyProduct : ℚ) * 0.85) = 17 := by
  rw [fair_tiny, show ((20 : ℤ) : ℚ) * 0.85 = ((17 : ℤ) : ℚ) by push_cast; norm_num,
    pyInt_intCast]

lemma pyRound_eval {q : ℚ} {n : ℤ} (h1 : Int.fract q ≠ 1/2) (h2 : ⌊q + 1/2⌋ = n) :
    pyRound q = n := by
  rw [pyRound, if_neg h1, round_eq, h2]

lemma seller_quality_mult_nonneg (p : Product) :
    0 ≤ YourSellerAgent.seller_quality_mult p := by
  simp only [YourSellerAgent.seller_quality_mult]
  split_ifs <;> norm_num

lemma seller_fair_nonneg {p : Product} (h : 0 ≤ p.base_market_price) :
    0 ≤ YourSellerAgent.fair_price p := by
  simp only [YourSellerAgent.fair_price]
  apply pyRound_nonneg
  have hb : (0 : ℚ) ≤ (p.base_market_price : ℚ) := by exact_mod_cast h
  apply mul_nonneg (mul_nonneg (mul_nonneg hb (seller_quality_mult_nonneg p)) _) _
  · split_ifs <;> norm_num
  · norm_num

lemma seller_step_down_nonneg (rl : ℤ) : 0 ≤ YourSellerAgent.seller_step_down rl := by
  simp only [YourSellerAgent.seller_step_down]
  split_ifs <;> norm_num

lemma seller_ongoing_price {p : Product} {bo rn : ℤ}
    (h : (YourSellerAgent.respond_to_buyer_offer p bo rn).1 = "ongoing") :
    (YourSellerAgent.respond_to_buyer_offer p bo rn).2 =
      YourSellerAgent.seller_counter p bo rn := by
  revert h
  simp only [YourSellerAgent.respond_to_buyer_offer]
  split_ifs <;> intro h
  · simp at h
  · simp at h
  · rfl

lemma seller_counter_ge_fair {p : Product} (bo rn : ℤ)
    (hb : 0 ≤ p.base_market_price) :
    pyInt ((YourSellerAgent.fair_price p : ℚ) *
        (1 + YourSellerAgent.seller_step_down (10 - (rn + 1)))) ≤
      YourSellerAgent.seller_counter p bo rn ∧
    YourSellerAgent.fair_price p ≤ YourSellerAgent.seller_counter p bo rn := by
  have hfairq : (0 : ℚ) ≤ (YourSellerAgent.fair_price p : ℚ) := by
    exact_mod_cast seller_fair_nonneg hb
  have hstep : 0 ≤ YourSellerAgent.seller_step_down (10 - (rn + 1)) :=
    seller_step_down_nonneg _
  have hff : (YourSellerAgent.fair_price p : ℚ) ≤
      (YourSellerAgent.fair_price p : ℚ) *
        (1 + YourSellerAgent.seller_step_down (10 - (rn + 1))) := by nlinarith
  simp only [YourSellerAgent.seller_counter]
  by_cases h8 : rn ≥ 8
  · rw [if_pos h8]
    constructor
    · exact le_trans (pyInt_mono (le_max_right _ _)) (le_pyInt (le_max_left _ _))
    · exact le_pyInt (le_max_right _ _)
  · rw [if_neg h8]
    constructor
    · exact pyInt_mono (le_max_right _ _)
    · exact le_pyInt (le_trans hff (le_max_right _ _))

lemma seller_fair_coffee : YourSellerAgent.fair_price coffeeProduct = 269791 := by
  have h1 : pyLower (pyStrip "A") = "a" := by decide
  have h2 : pyLower "Colombia" = "colombia" := by decide
  simp only [YourSellerAgent.fair_price, YourSellerAgent.seller_quality_mult,
    originBonus, coffeeProduct, h1, h2]
  norm_num
  rw [if_neg (by decide)]
  exact pyRound_eval (by norm_num [Int.fract]) (by norm_num)

lemma seller_zone_coffee : YourSellerAgent.seller_zone coffeeProduct = (269791, 296770) := by
  rw [YourSellerAgent.seller_zone, seller_fair_coffee]
  rw [show pyInt (((269791 : ℤ) : ℚ) * 1.00) = 269791 by
      rw [show ((269791 : ℤ) : ℚ) * 1.00 = ((269791 : ℤ) : ℚ) by norm_num, pyInt_intCast],
    show pyInt (((269791 : ℤ) : ℚ) * 1.10) = 296770 from
      pyInt_eval (by norm_num) (by norm_num)]

lemma seller_ongoing_coffee :
    (YourSellerAgent.respond_to_buyer_offer coffeeProduct 100000 1).1 = "ongoing" := by
  simp only [YourSellerAgent.respond_to_buyer_offer]
  rw [if_neg (fun h => absurd h.1 (by rw [seller_zone_coffee]; norm_num)),
    if_neg (by
      rw [seller_fair_coffee,
        show pyInt (((269791 : ℤ) : ℚ) * 0.98) = 264395 from
          pyInt_eval (by norm_num) (by norm_num)]
      norm_num)]

lemma probe_first_step :
    negotiationStep probeBuyer ⟨300000⟩ 0 (initial_context mangoProduct 200000) 270000 =
      StepOut.next ⟨mangoProduct, 200000, 1, [270000, 300000], [1]⟩ 300000 := by
  have hmock : (MockSellerAgent.mk 300000).respond_to_buyer 1 (0 : ℤ) =
      (300000, false) := by
    rw [MockSellerAgent.respond_to_buyer]
    rw [if_neg (by norm_num), if_neg (by norm_num)]
    rw [show pyInt (((1 : ℤ) : ℚ) * 1.15) = 1 from pyInt_eval (by norm_num) (by norm_num)]
    norm_num
  simp only [negotiationStep, probeBuyer, initial_context, mock_opening_mango]
  norm_num
  rw [if_neg (by simp : ¬(DealStatus.ONGOING = DealStatus.ACCEPTED)), hmock]
  simp

end HelperLemmas

section Claims

open YourBuyerAgent

/-- C1 — Budget invariant: for every negotiation context with budget `B`,
every integer returned by the buyer strategy — the opening offer from
`generate_opening_offer`, and the counter-offer or acceptance price from
`respond_to_seller_offer` on every decision branch (the universal
quantification over contexts and seller prices covers the zone-accept,
snap-accept, convergence-accept, dominance-accept and ONGOING-counter
branches) — is `≤ B`. -/
theorem c1_budget_invariant :
    ∀ (context : NegotiationContext) (seller_price : ℤ) (seller_message : String),
      generate_opening_offer context ≤ context.your_budget ∧
      (respond_to_seller_offer context seller_price seller_message).2.1 ≤
        context.your_budget :=
  fun c sp m => ⟨opening_le_budget c, respond_price_le_budget c sp m⟩

/-- C3 — Fair price formula: `calculate_fair_price` equals the rounded
product `base_market_price × quality_factor × origin_factor ×
volume_factor`; the quality factor is 1.15 for grade `"Export"`, 1.05 for
`"A"`, 0.95 for `"B"` and 1.0 for any other grade (total function, never an
error); and the spec's scenario (base 180000, grade A, quantity 100, origin
Ratnagiri) yields 189000. -/
theorem c3_fair_price_formula :
    (∀ p : Product, calculate_fair_price p =
      pyRound ((p.base_market_price : ℚ) * quality_mult p *
        (if pyLower p.origin ∈ originBonus then 1.05 else 1) *
        (if 200 ≤ p.quantity then 0.98 else 1))) ∧
    (∀ p : Product, p.quality_grade = "Export" → quality_mult p = 1.15) ∧
    (∀ p : Product, p.quality_grade = "A" → quality_mult p = 1.05) ∧
    (∀ p : Product, p.quality_grade = "B" → quality_mult p = 0.95) ∧
    (∀ p : Product,
      pyLower (pyStrip p.quality_grade) ∉ (["export", "a", "b"] : List String) →
      quality_mult p = 1) ∧
    calculate_fair_price mangoProduct = 189000 := by
  refine ⟨?_, ?_, ?_, ?_, ?_, fair_mango⟩
  · intro p
    simp only [calculate_fair_price, ge_iff_le]
    norm_num
  · intro p h
    simp only [quality_mult, h]
    rw [show pyLower (pyStrip "Export") = "export" from by decide, if_pos rfl]
  · intro p h
    simp only [quality_mult, h]
    rw [show pyLower (pyStrip "A") = "a" from by decide,
      if_neg (by decide), if_pos rfl]
  · intro p h
    simp only [quality_mult, h]
    rw [show pyLower (pyStrip "B") = "b" from by decide,
      if_neg (by decide), if_neg (by decide), if_pos rfl]
  · intro p h
    simp only [List.mem_cons, not_or] at h
    obtain ⟨h1, h2, h3⟩ := h
    simp only [quality_mult]
    rw [if_neg h1, if_neg h2, if_neg h3.1]
    norm_num

/-- C3 witness: the quality-factor clauses of `c3_fair_price_formula`
evaluated at concrete products of each grade. -/
theorem c3_witness :
    quality_mult ⟨"x", "x", 1, "Export", "x", 100⟩ = 1.15 ∧
    quality_mult ⟨"x", "x", 1, "A", "x", 100⟩ = 1.05 ∧
    quality_mult ⟨"x", "x", 1, "B", "x", 100⟩ = 0.95 ∧
    quality_mult ⟨"x", "x", 1, "Premium", "x", 100⟩ = 1 :=
  ⟨c3_fair_price_formula.2.1 _ rfl,
   c3_fair_price_formula.2.2.1 _ rfl,
   c3_fair_price_formula.2.2.2.1 _ rfl,
   c3_fair_price_formula.2.2.2.2.1 _ (by decide)⟩

/-- C4 — Opening offer: `generate_opening_offer` returns exactly
`min(int(0.78 × fair_price), budget)`, hence is always `≤ budget`; on the
fair-price-189000 product it returns 147420 whenever the budget allows, and
exactly 144000 when the budget is 144000. -/
theorem c4_opening_offer :
    (∀ c : NegotiationContext,
      generate_opening_offer c =
        min (pyInt ((0.78 : ℚ) * (calculate_fair_price c.product : ℚ)))
          c.your_budget ∧
      generate_opening_offer c ≤ c.your_budget) ∧
    (∀ b : ℤ, 147420 ≤ b →
      generate_opening_offer (mangoContext b) = 147420) ∧
    generate_opening_offer (mangoContext 144000) = 144000 := by
  refine ⟨fun c => ⟨?_, opening_le_budget c⟩, fun b hb => ?_, ?_⟩
  · rw [opening_eq, mul_comm]
  · rw [opening_mango]
    omega
  · rw [opening_mango]
    decide

/-- C4 witness: the budget-sufficient clause of `c4_opening_offer` applied
at budget 150000. -/
theorem c4_witness :
    generate_opening_offer (mangoContext 150000) = 147420 :=
  c4_opening_offer.2.1 150000 (by norm_num)

/-- C10 — Acceptance price identity: whenever `respond_to_seller_offer`
returns `ACCEPTED` (on any of its four accept branches), the price it
returns equals `seller_price` exactly. -/
theorem c10_accept_price_identity :
    ∀ (context : NegotiationContext) (seller_price : ℤ) (seller_message : String),
      (respond_to_seller_offer context seller_price seller_message).1 =
        DealStatus.ACCEPTED →
      (respond_to_seller_offer context seller_price seller_message).2.1 =
        seller_price :=
  fun _ _ _ h => respond_accepted_price h

/-- C10 witness: a concrete accepted offer (seller price 170000 inside the
target zone at budget 200000) settles at exactly 170000. -/
theorem c10_witness :
    (respond_to_seller_offer (mangoContext 200000) 170000 "").2.1 = 170000 := by
  apply c10_accept_price_identity (mangoContext 200000) 170000 ""
  rw [respond_eq_zone]
  rw [show (mangoContext 200000).product = mangoProduct from rfl, zone_mango]
  refine ⟨by norm_num [mangoContext], by norm_num, by norm_num⟩

/-- C5 — Buyer concession schedule: with `rounds_left = 10 − current_round`
the step is 7% for `rounds_left ≥ 6`, 4.5% for `3 ≤ rounds_left ≤ 5` and 3%
for `rounds_left < 3`; the candidate proposal is the maximum of the last
offer, the last offer scaled by `1 + step`, and 97% of the midpoint between
the last offer and `min(seller_price, budget)`, clamped to budget; for
`current_round ≥ 9` the proposal is floored at 90% of fair price (still
clamped to budget), otherwise capped at the greater of 92% of fair price
and the last offer; and the ONGOING counter equals this proposal clamped to
budget. -/
theorem c5_concession_schedule :
    ∀ (context : NegotiationContext) (seller_price : ℤ) (m : String),
      (concession_step (10 - context.current_round) =
        (if 6 ≤ 10 - context.current_round then 7/100
         else if 3 ≤ 10 - context.current_round ∧ 10 - context.current_round ≤ 5
           then 9/200
         else 3/100)) ∧
      (proposed_offer context seller_price =
        (let B := context.your_budget
         let fair := calculate_fair_price context.product
         let lo := last_offer context
         let step := concession_step (10 - context.current_round)
         let candidate := pyInt (min (B : ℚ)
           (max (max (lo : ℚ) ((lo : ℚ) * (1 + step)))
             (0.97 * (((lo : ℚ) + ((min seller_price B : ℤ) : ℚ)) / 2))))
         if 9 ≤ context.current_round then
           min B (max candidate (pyInt ((0.90 : ℚ) * (fair : ℚ))))
         else
           min candidate (max (pyInt ((0.92 : ℚ) * (fair : ℚ))) lo))) ∧
      ((respond_to_seller_offer context seller_price m).1 = DealStatus.ONGOING →
        (respond_to_seller_offer context seller_price m).2.1 =
          min (proposed_offer context seller_price) context.your_budget) := by
  intro c sp m
  refine ⟨?_, ?_, fun h => respond_ongoing_price h⟩
  · simp only [concession_step, ge_iff_le]
    by_cases h6 : 6 ≤ 10 - c.current_round
    · rw [if_pos h6, if_pos h6]
      norm_num
    · rw [if_neg h6, if_neg h6]
      by_cases h3 : 3 ≤ 10 - c.current_round
      · rw [if_pos h3, if_pos ⟨h3, by omega⟩]
        norm_num
      · rw [if_neg h3, if_neg (fun hc => h3 hc.1)]
        norm_num
  · simp only [proposed_offer, ge_iff_le]
    ring_nf

/-- C5 witness: `c5_concession_schedule` at the concrete mid-negotiation
context `counterContext` (round 2, so 8 rounds left) and seller price
260000 (which yields an ONGOING counter). -/
theorem c5_witness :
    concession_step (10 - counterContext.current_round) =
      (if 6 ≤ 10 - counterContext.current_round then 7/100
       else if 3 ≤ 10 - counterContext.current_round ∧
         10 - counterContext.current_round ≤ 5 then 9/200
       else 3/100) ∧
    (respond_to_seller_offer counterContext 260000 "").2.1 =
      min (proposed_offer counterContext 260000) counterContext.your_budget :=
  ⟨(c5_concession_schedule counterContext 260000 "").1,
   (c5_concession_schedule counterContext 260000 "").2.2
     (by rw [counter_eval])⟩

/-- C6 — Monotonic convergence: for a context with recorded offers whose
last offer is within budget, an ONGOING counter never retreats below that
last offer; consequently, in every `run_negotiation_test` run of
`YourBuyerAgent` (over a well-formed product with nonnegative base price
and budget) the recorded buyer-offer sequence is non-decreasing. -/
theorem c6_monotonic :
    (∀ (context : NegotiationContext) (sp : ℤ) (m : String) (l : ℤ),
      context.your_offers.getLast? = some l →
      l ≤ context.your_budget →
      (respond_to_seller_offer context sp m).1 = DealStatus.ONGOING →
      l ≤ (respond_to_seller_offer context sp m).2.1) ∧
    (∀ (p : Product) (budget smin : ℤ),
      0 ≤ p.base_market_price → 0 ≤ budget →
      List.Chain' (· ≤ ·)
        (run_negotiation_test yourBuyerAgent p budget smin).ctx.your_offers) := by
  constructor
  · intro c sp m l hl hlB hO
    rw [respond_ongoing_price hO]
    refine le_min ?_ hlB
    have hlo : last_offer c = l := last_offer_eq hl
    rw [← hlo]
    exact proposed_ge_last sp (by rw [hlo]; exact hlB)
  · intro p budget smin hb hB
    simp only [run_negotiation_test]
    exact loop_chain smin 10 0 (initial_context p budget) _
      (fun _ => ⟨rfl, hb, hB⟩) (fun h => absurd rfl h)

/-- C6 witness: the no-retreat clause at `counterContext` (last offer
147420, counter 168498), and the run-level chain over `mangoProduct` with
budget 200000 and seller minimum 160000. -/
theorem c6_witness :
    (147420 : ℤ) ≤ (respond_to_seller_offer counterContext 260000 "").2.1 ∧
    List.Chain' (· ≤ ·)
      (run_negotiation_test yourBuyerAgent mangoProduct 200000 160000).ctx.your_offers :=
  ⟨c6_monotonic.1 counterContext 260000 "" 147420 rfl (by norm_num [counterContext])
      (by rw [counter_eval]),
   c6_monotonic.2 mangoProduct 200000 160000 (by norm_num [mangoProduct]) (by norm_num)⟩

/-- C2 — Termination: `run_negotiation_test` performs at most 10 buyer
turns (each turn records exactly one buyer offer) and reports a final round
number of at most 10, for every buyer strategy whatsoever; and whenever no
acceptance can occur (the buyer never returns ACCEPTED and no offer reaches
the mock seller's acceptance threshold), the run reports
`deal_made = false` with no final price — a timeout distinct from a deal. -/
theorem c2_termination :
    ∀ (buyer : BuyerAgent) (p : Product) (budget smin : ℤ),
      ((run_negotiation_test buyer p budget smin).ctx.your_offers).length ≤ 10 ∧
      (run_negotiation_test buyer p budget smin).rounds ≤ 10 ∧
      ((∀ c, ((buyer.opening c : ℚ) < (smin : ℚ) * 1.1)) →
       (∀ c sp, (buyer.respond c sp).1 ≠ DealStatus.ACCEPTED ∧
         (((buyer.respond c sp).2 : ℚ) < (smin : ℚ) * 1.1)) →
       (run_negotiation_test buyer p budget smin).deal_made = false ∧
         (run_negotiation_test buyer p budget smin).final_price = none) := by
  intro buyer p budget smin
  refine ⟨?_, ?_, fun H1 H2 => ?_⟩
  · simpa [run_negotiation_test, initial_context] using
      loop_offers_length buyer ⟨smin⟩ 10 0 (initial_context p budget)
        (MockSellerAgent.get_opening_price p)
  · simpa [run_negotiation_test, initial_context] using
      loop_rounds_le buyer ⟨smin⟩ 10 0 (initial_context p budget)
        (MockSellerAgent.get_opening_price p) (by simp [initial_context])
  · have h := loop_no_accept buyer smin H1 H2 10 0 (initial_context p budget)
      (MockSellerAgent.get_opening_price p)
    constructor
    · simpa [run_negotiation_test] using h.1
    · simpa [run_negotiation_test] using h.2

/-- C2 witness: `c2_termination` at the never-accepting `stubbornBuyer`
(offers 0 forever) against seller minimum 100: at most 10 buyer turns,
rounds ≤ 10, and a timeout reported as `deal_made = false`. -/
theorem c2_witness :
    ((run_negotiation_test stubbornBuyer mangoProduct 200000 100).ctx.your_offers).length ≤ 10 ∧
    (run_negotiation_test stubbornBuyer mangoProduct 200000 100).rounds ≤ 10 ∧
    (run_negotiation_test stubbornBuyer mangoProduct 200000 100).deal_made = false ∧
    (run_negotiation_test stubbornBuyer mangoProduct 200000 100).final_price = none := by
  have h := c2_termination stubbornBuyer mangoProduct 200000 100
  have H1 : ∀ c, (((stubbornBuyer.opening c : ℤ) : ℚ) < ((100 : ℤ) : ℚ) * 1.1) :=
    fun c => by norm_num [stubbornBuyer]
  have H2 : ∀ c sp, (stubbornBuyer.respond c sp).1 ≠ DealStatus.ACCEPTED ∧
      (((stubbornBuyer.respond c sp).2 : ℚ) < ((100 : ℤ) : ℚ) * 1.1) :=
    fun c sp => ⟨by simp [stubbornBuyer], by norm_num [stubbornBuyer]⟩
  exact ⟨h.1, h.2.1, (h.2.2 H1 H2).1, (h.2.2 H1 H2).2⟩

/-- C7 counterexample: at fair price 20 (so the zone lower bound
`int(0.88×20) = 17` equals the snap threshold `int(0.85×20) = 17`), seller
price 17 under budget 100 satisfies the snap-accept conditions, yet the
answering branch is the zone accept, not the snap accept — refuting the
claim's "no earlier branch can fire instead". -/
theorem c7_counterexample :
    ((17 : ℤ) ≤ tinyContext.your_budget ∧
      (17 : ℤ) ≤ pyInt ((calculate_fair_price tinyContext.product : ℚ) * 0.85)) ∧
    (respond_to_seller_offer tinyContext 17 "").2.2 = RespTag.zoneAccept ∧
    (respond_to_seller_offer tinyContext 17 "").2.2 ≠ RespTag.snapAccept := by
  have hz : respond_to_seller_offer tinyContext 17 "" =
      (DealStatus.ACCEPTED, 17, RespTag.zoneAccept) := by
    apply respond_eq_zone
    rw [show tinyContext.product = tinyProduct from rfl, zone_tiny]
    exact ⟨by norm_num [tinyContext], by norm_num, by norm_num⟩
  refine ⟨⟨by norm_num [tinyContext], ?_⟩, by rw [hz], by rw [hz]; simp⟩
  rw [show tinyContext.product = tinyProduct from rfl, snap_tiny]

/-- C7 amended — Snap accept: whenever `seller_price ≤ budget` and
`seller_price ≤ int(0.85 × fair_price)`, `respond_to_seller_offer` returns
`ACCEPTED` at exactly `seller_price` on that response, for every round
number; the answering branch is the snap accept unless the zone accept
fires first (possible only when the zone's lower bound does not exceed the
snap threshold, as at small fair prices), and in either case the observable
result is `ACCEPTED` at `seller_price`. -/
theorem c7_snap_accept_amended :
    ∀ (context : NegotiationContext) (seller_price : ℤ) (m : String),
      seller_price ≤ context.your_budget →
      seller_price ≤ pyInt ((calculate_fair_price context.product : ℚ) * 0.85) →
      (respond_to_seller_offer context seller_price m).1 = DealStatus.ACCEPTED ∧
      (respond_to_seller_offer context seller_price m).2.1 = seller_price ∧
      ((respond_to_seller_offer context seller_price m).2.2 = RespTag.snapAccept ∨
       (respond_to_seller_offer context seller_price m).2.2 = RespTag.zoneAccept) := by
  intro c sp m hb hs
  by_cases hz : sp ≤ c.your_budget ∧ (target_zone c.product).1 ≤ sp ∧
      sp ≤ (target_zone c.product).2
  · rw [respond_eq_zone hz]
    exact ⟨rfl, rfl, Or.inr rfl⟩
  · rw [respond_eq_snap hz ⟨hb, hs⟩]
    exact ⟨rfl, rfl, Or.inl rfl⟩

/-- C7 witness: seller price 150000 ≤ 0.85 × 189000 = 160650 under budget
200000 snap-accepts at exactly 150000 on the first response. -/
theorem c7_witness :
    (respond_to_seller_offer (mangoContext 200000) 150000 "").1 = DealStatus.ACCEPTED ∧
    (respond_to_seller_offer (mangoContext 200000) 150000 "").2.1 = 150000 ∧
    ((respond_to_seller_offer (mangoContext 200000) 150000 "").2.2 = RespTag.snapAccept ∨
     (respond_to_seller_offer (mangoContext 200000) 150000 "").2.2 = RespTag.zoneAccept) :=
  c7_snap_accept_amended (mangoContext 200000) 150000 ""
    (by norm_num [mangoContext])
    (by rw [show (mangoContext 200000).product = mangoProduct from rfl,
        snap_threshold_mango]; norm_num)

/-- C8 counterexample: the orchestrator sets `current_round` to
`round_num + 1` before invoking the buyer, so the opening-offer call
observes `current_round = 1`, not `0`: the instrumented `probeBuyer`
(whose offers report the observed round) records `1` as the first buyer
offer of an actual run. -/
theorem c8_counterexample :
    stepOffer probeBuyer 0 (initial_context mangoProduct 200000) 270000 = 1 ∧
    (run_negotiation_test probeBuyer mangoProduct 200000 300000).ctx.your_offers.head? =
      some 1 ∧
    (1 : ℤ) ≠ 0 := by
  refine ⟨by simp [stepOffer_zero, probeBuyer], ?_, by norm_num⟩
  simp only [run_negotiation_test, mock_opening_mango]
  rw [show (10 : ℕ) = 9 + 1 from rfl, negotiationLoop, probe_first_step]
  show (negotiationLoop probeBuyer ⟨300000⟩ 9 1
    ⟨mangoProduct, 200000, 1, [270000, 300000], [1]⟩ 300000).2.2.your_offers.head? = some 1
  obtain ⟨tail, htail⟩ := loop_offers_append probeBuyer ⟨300000⟩ 9 1
    ⟨mangoProduct, 200000, 1, [270000, 300000], [1]⟩ 300000
  rw [htail]
  rfl

/-- C8 amended — Round counter convention: the context's round counter
starts at 0 in the freshly built context; each loop iteration sets it to
`round_num + 1` before the buyer's turn, so after any run the reported
round count equals the number of recorded buyer offers (one increment per
turn); consequently the opening-offer call observes `current_round = 1`,
not `0` (the instrumented probe reads off `1` in the first iteration of
every run). -/
theorem c8_round_convention_amended :
    (∀ (p : Product) (budget : ℤ), (initial_context p budget).current_round = 0) ∧
    (∀ (buyer : BuyerAgent) (p : Product) (budget smin : ℤ),
      (run_negotiation_test buyer p budget smin).rounds =
        ((run_negotiation_test buyer p budget smin).ctx.your_offers.length : ℤ)) ∧
    (∀ (ctx : NegotiationContext) (sp : ℤ), stepOffer probeBuyer 0 ctx sp = 1) := by
  refine ⟨fun p b => rfl, fun buyer p budget smin => ?_, fun ctx sp => ?_⟩
  · simp only [run_negotiation_test]
    exact loop_round_eq_len buyer ⟨smin⟩ 10 0 (initial_context p budget)
      (MockSellerAgent.get_opening_price p) rfl rfl
  · simp [stepOffer_zero, probeBuyer]

/-- C9 — Seller floor: when `YourSellerAgent.respond_to_buyer_offer`
returns status `"ongoing"` (over a product with nonnegative base price),
the step-down factor is one of 7%, 5%, 3%; before round 8 the counter ask
is at least `int(fair × (1 + step_down))` and never below the seller's fair
price; from round 8 onward it still never drops below fair price. -/
theorem c9_seller_floor :
    ∀ (p : Product) (buyer_offer round_num : ℤ),
      0 ≤ p.base_market_price →
      (YourSellerAgent.respond_to_buyer_offer p buyer_offer round_num).1 = "ongoing" →
      (YourSellerAgent.seller_step_down (10 - (round_num + 1)) = 7/100 ∨
       YourSellerAgent.seller_step_down (10 - (round_num + 1)) = 1/20 ∨
       YourSellerAgent.seller_step_down (10 - (round_num + 1)) = 3/100) ∧
      (round_num < 8 →
        pyInt ((YourSellerAgent.fair_price p : ℚ) *
            (1 + YourSellerAgent.seller_step_down (10 - (round_num + 1)))) ≤
          (YourSellerAgent.respond_to_buyer_offer p buyer_offer round_num).2 ∧
        YourSellerAgent.fair_price p ≤
          (YourSellerAgent.respond_to_buyer_offer p buyer_offer round_num).2) ∧
      (8 ≤ round_num →
        YourSellerAgent.fair_price p ≤
          (YourSellerAgent.respond_to_buyer_offer p buyer_offer round_num).2) := by
  intro p bo rn hb hongoing
  have hsteps : YourSellerAgent.seller_step_down (10 - (rn + 1)) = 7/100 ∨
      YourSellerAgent.seller_step_down (10 - (rn + 1)) = 1/20 ∨
      YourSellerAgent.seller_step_down (10 - (rn + 1)) = 3/100 := by
    simp only [YourSellerAgent.seller_step_down]
    split_ifs
    · exact Or.inl (by norm_num)
    · exact Or.inr (Or.inl (by norm_num))
    · exact Or.inr (Or.inr (by norm_num))
  rw [seller_ongoing_price hongoing]
  exact ⟨hsteps, fun _ => seller_counter_ge_fair bo rn hb,
    fun _ => (seller_counter_ge_fair bo rn hb).2⟩

/-- C9 witness: `c9_seller_floor` at the coffee product (seller fair price
269791), buyer offer 100000, round 1 — an ongoing counter before round 8. -/
theorem c9_witness :
    (YourSellerAgent.seller_step_down (10 - ((1 : ℤ) + 1)) = 7/100 ∨
     YourSellerAgent.seller_step_down (10 - ((1 : ℤ) + 1)) = 1/20 ∨
     YourSellerAgent.seller_step_down (10 - ((1 : ℤ) + 1)) = 3/100) ∧
    ((1 : ℤ) < 8 →
      pyInt ((YourSellerAgent.fair_price coffeeProduct : ℚ) *
          (1 + YourSellerAgent.seller_step_down (10 - ((1 : ℤ) + 1)))) ≤
        (YourSellerAgent.respond_to_buyer_offer coffeeProduct 100000 1).2 ∧
      YourSellerAgent.fair_price coffeeProduct ≤
        (YourSellerAgent.respond_to_buyer_offer coffeeProduct 100000 1).2) ∧
    ((8 : ℤ) ≤ 1 →
      YourSellerAgent.fair_price coffeeProduct ≤
        (YourSellerAgent.respond_to_buyer_offer coffeeProduct 100000 1).2) :=
  c9_seller_floor coffeeProduct 100000 1 (by norm_num [coffeeProduct])
    seller_ongoing_coffee

end Claims
